import Mathlib

/-!
# Verification of the vmware_tui state-synchronization core

Shallow embedding of the caching layer (`vmware_manager/api/vm_get.py`),
the power-action lock discipline (`vmware_manager/api/vm_put.py`) and the
background poller tick (`vm_refresh_worker` in `vmware_manager/__init__.py`).

Conventions of the embedding:
* Wall-clock time is an `Int` (seconds); each Python `time.time()` call inside
  one embedded operation is modelled as the single instant `now` at which the
  operation runs (the code's two `time.time()` reads inside `get_vm_list`
  collapse to one, as no property here depends on in-call elapsed time).
* HTTP calls are modelled by a `Client` oracle; `ClientResult.httpError n`
  is a completed response with non-success status `n`, `ClientResult.exception`
  is a raised `requests` exception (timeout, connection error, JSON decode
  failure, ...).
* Observable effects (client calls, cache writes, screen draws, sleeps, lock
  acquire/release) are recorded in an event trace, mirroring the spec's
  "no write events recorded" test style.  Log-collaborator calls are not
  traced: no property under verification mentions them.
* Python dict mutation is modelled by pure record/function update.  One
  aliasing effect is intentionally not modelled: after a successful refresh,
  `main_menu.vm_list` and `vm_list_cache` share dict objects, so the poller's
  in-place `vm['power_state'] = ...` writes are also visible through
  `vm_list_cache`; no verified property observes those element values.
-/

/-- `CACHE_TIMEOUT = 5` from `vm_get.py`: TTL in seconds for the inventory
and per-VM power-state caches. -/
def CACHE_TIMEOUT : Int := 5

/-- `REFRESH_INTERVAL = 5` from `vm_refresh_worker`: base loop period. -/
def REFRESH_INTERVAL : Int := 5

/-- `POWER_STATE_INTERVAL = 10` from `vm_refresh_worker`. -/
def POWER_STATE_INTERVAL : Int := 10

/-- `FULL_REFRESH_INTERVAL = 30` from `vm_refresh_worker`. -/
def FULL_REFRESH_INTERVAL : Int := 30

/-- A VM entry as the hypervisor's list endpoint returns it: a JSON object
with an optional `id` field and a `path` field (`vm.get('path', '')`). -/
structure RawVM where
  id : Option String
  path : String
deriving DecidableEq, Repr

/-- A processed VM record as stored in `vm_list_cache`: the raw fields plus
the `name` and `power_state` keys that `get_vm_list` adds. -/
structure VM where
  id : String
  path : String
  name : String
  power_state : String
deriving DecidableEq, Repr

/-- Outcome of one HTTP request made through `requests`. -/
inductive ClientResult (α : Type) where
  | success : α → ClientResult α
  | httpError : Nat → ClientResult α
  | exception : ClientResult α
deriving DecidableEq, Repr

/-- `true` iff the request did not complete with a success payload
(non-OK status or raised exception). -/
def ClientResult.failed : ClientResult α → Bool
  | .success _ => false
  | .httpError _ => true
  | .exception => true

/-- The VM Directory Client: the three hypervisor endpoints the core uses.
`powerState` returns the optional `power_state` field of the decoded JSON
body (`data.get('power_state', 'UNKNOWN')` applies the default at the call
site); `setPower` returns `some status` for a completed PUT and `none` for a
raised exception. -/
structure Client where
  listVMs : ClientResult (List RawVM)
  powerState : String → ClientResult (Option String)
  setPower : String → String → Option Nat

/-- The module-level mutable state of `vm_get.py`: `vm_list_cache`,
`last_refresh` and `power_state_cache` (a dict from VM id to
`(cache_time, state)`). -/
structure CacheState where
  vm_list_cache : List VM
  last_refresh : Int
  power_state_cache : String → Option (Int × String)

/-- Observable effects of the embedded operations. -/
inductive Event where
  | listCall : Event
  | powerCall : String → Event
  | invWrite : Event
  | powerWrite : String → Event
  | acquire : Event
  | release : Event
  | draw : Event
  | sleep : Int → Event
deriving DecidableEq, Repr

/-- Split a character list at every character satisfying `p`
(Python `str.split` / `re` on a separator class; like `String.split`,
yields one possibly-empty group per separator gap). -/
def splitChars (p : Char → Bool) : List Char → List (List Char)
  | [] => [[]]
  | c :: cs =>
    if p c then [] :: splitChars p cs
    else
      match splitChars p cs with
      | [] => [[c]]
      | g :: gs => (c :: g) :: gs

/-- Last index of character `c` in the list, if any
(counterpart of Python's `str.rfind`). -/
def lastIdxOf (c : Char) : List Char → Option Nat
  | [] => none
  | x :: xs =>
    match lastIdxOf c xs with
    | some i => some (i + 1)
    | none => if x = c then some 0 else none

/-- `os.path.splitext(base)[0]` for a base name that contains no separator:
cut at the last dot unless every character before it is itself a dot. -/
def splitextStemChars (cs : List Char) : List Char :=
  match lastIdxOf '.' cs with
  | none => cs
  | some i =>
    if (cs.take i).any (fun c => c ≠ '.') then cs.take i else cs

/-- `os.path.basename` (POSIX): the part after the last `/`. -/
def basenameChars (cs : List Char) : List Char :=
  match (splitChars (fun c => c = '/') cs).getLast? with
  | some s => s
  | none => []

/-- `clean_vm_name` from `vm_get.py`: the regex
`Virtual Machines[/\\]([^/\\]+)[/\\][^/\\]+\.vmx$` picks out the path
component following a component that ends in `Virtual Machines`, provided the
final component is `<nonempty>.vmx`; otherwise fall back to
`os.path.splitext(os.path.basename(path))[0]`. -/
def clean_vm_name (path : String) : String :=
  match (splitChars (fun c => c = '/' || c = '\\') path.toList).reverse with
  | file :: name :: pre :: _ =>
    if ("Virtual Machines".toList.isSuffixOf pre) && name ≠ [] &&
        (".vmx".toList.isSuffixOf file) && 4 < file.length then
      String.mk name
    else String.mk (splitextStemChars (basenameChars path.toList))
  | _ => String.mk (splitextStemChars (basenameChars path.toList))

/-- `get_vm_power_state` from `vm_get.py`.  Serves the per-VM cache entry if
present and younger than `CACHE_TIMEOUT`; otherwise performs one GET on
`/vms/{vm_id}/power`.  On an OK response the `power_state` field (default
`'UNKNOWN'`) is cached under `vm_id` with timestamp `now` and returned; on a
non-OK response or exception it returns `'UNKNOWN'` with no cache write.
Returns (result, new cache state, event trace). -/
def get_vm_power_state (client : Client) (now : Int) (st : CacheState)
    (vm_id : String) : String × CacheState × List Event :=
  let cached : Option String :=
    match st.power_state_cache vm_id with
    | some (cache_time, state) =>
      if now - cache_time < CACHE_TIMEOUT then some state else none
    | none => none
  match cached with
  | some state => (state, st, [])
  | none =>
    match client.powerState vm_id with
    | .success payload =>
      let state := payload.getD "UNKNOWN"
      (state,
       { st with power_state_cache :=
           fun k => if k = vm_id then some (now, state)
                    else st.power_state_cache k },
       [Event.powerCall vm_id, Event.powerWrite vm_id])
    | .httpError _ => ("UNKNOWN", st, [Event.powerCall vm_id])
    | .exception => ("UNKNOWN", st, [Event.powerCall vm_id])

/-- The per-entry loop of `get_vm_list`'s 200-branch: for each raw entry in
listing order, skip it unless it has a truthy (non-empty) `id`; otherwise
derive its name from its path, fetch its power state through
`get_vm_power_state`, and append the augmented record.  (The inner
`try/except` around the loop body is not reachable in the embedding: all the
operations it guards are total here.) -/
def processVMs (client : Client) (now : Int) :
    CacheState → List RawVM → List VM × CacheState × List Event
  | st, [] => ([], st, [])
  | st, raw :: rest =>
    match raw.id with
    | some vm_id =>
      if vm_id ≠ "" then
        let r1 := get_vm_power_state client now st vm_id
        let r2 := processVMs client now r1.2.1 rest
        ({ id := vm_id, path := raw.path, name := clean_vm_name raw.path,
           power_state := r1.1 } :: r2.1,
         r2.2.1, r1.2.2 ++ r2.2.2)
      else processVMs client now st rest
    | none => processVMs client now st rest

/-- `get_vm_list` from `vm_get.py` (the spec's `get_inventory`).  Serves the
cached list when `force` is false, the cached list is non-empty (Python
truthiness of `vm_list_cache`) and the entry is younger than `CACHE_TIMEOUT`.
Otherwise it performs one GET on `/vms`: on status 200 it builds the new list
via `processVMs`, replaces `vm_list_cache` and `last_refresh` wholesale, and
returns the new list; on any other status or a raised exception it returns
`[]` leaving the whole cache state untouched. -/
def get_vm_list (client : Client) (now : Int) (st : CacheState)
    (force : Bool) : List VM × CacheState × List Event :=
  if force = false ∧ st.vm_list_cache ≠ [] ∧
      now - st.last_refresh < CACHE_TIMEOUT then
    (st.vm_list_cache, st, [])
  else
    match client.listVMs with
    | .success raws =>
      let r := processVMs client now st raws
      (r.1,
       { r.2.1 with vm_list_cache := r.1, last_refresh := now },
       Event.listCall :: r.2.2 ++ [Event.invWrite])
    | .httpError _ => ([], st, [Event.listCall])
    | .exception => ([], st, [Event.listCall])

/-- `get_vm_details` from `vm_get.py`: uncached passthrough;
`None` on any failure (`raise_for_status` turns non-OK into an exception). -/
def get_vm_details (details : ClientResult (List (String × String)))
    : Option (List (String × String)) :=
  match details with
  | .success d => some d
  | .httpError _ => none
  | .exception => none

/-- The Navigation State values a submenu can take
(`main_menu.current_menu` holds `None` on the main screen). -/
inductive Submenu where
  | config
  | vm (vm_id : String)
deriving DecidableEq, Repr

/-- The per-loop state `vm_refresh_worker` keeps in locals:
`last_full_refresh` and `last_power_check`. -/
structure PollerState where
  last_full_refresh : Int
  last_power_check : Int
deriving DecidableEq, Repr

/-- The shared mutable state one poller tick touches: the `vm_get` cache,
`main_menu.vm_list`, and whether `menu_lock` is currently held by the other
actor (so the poller's 1-second timed acquire fails). -/
structure AppState where
  cache : CacheState
  vm_list : List VM
  lock_held : Bool

/-- Inputs of one tick that the environment chooses: the client, the value
of `time.time()` at the top of the tick, the two reads of
`main_menu.current_menu` (one before the lock, one under it — the
interactive thread may change it in between), and whether
`main_menu.draw_screen()` raises a curses error. -/
structure TickEnv where
  client : Client
  now : Int
  menu1 : Option Submenu
  menu2 : Option Submenu
  draw_raises : Bool

/-- The poller's power-state-only branch: `for vm in main_menu.vm_list`,
update `vm['power_state']` in place via `get_vm_power_state` when the entry's
`id` is truthy. -/
def powerLoop (client : Client) (now : Int) :
    CacheState → List VM → List VM × CacheState × List Event
  | st, [] => ([], st, [])
  | st, vm :: rest =>
    if vm.id ≠ "" then
      let r1 := get_vm_power_state client now st vm.id
      let r2 := powerLoop client now r1.2.1 rest
      ({ vm with power_state := r1.1 } :: r2.1, r2.2.1, r1.2.2 ++ r2.2.2)
    else
      let r2 := powerLoop client now st rest
      (vm :: r2.1, r2.2.1, r2.2.2)

/-- One iteration of `vm_refresh_worker`'s loop (with `_shutdown` false).
If a submenu is active at the top, only sleep the base period.  Otherwise try
`menu_lock.acquire(timeout=1.0)`; on failure only sleep.  On success, with the
submenu state re-checked under the lock: run the full refresh
(`refresh_vm_list(force=True)`, i.e. `get_vm_list` then `draw_screen` in its
`finally`) when `now - last_full_refresh >= FULL_REFRESH_INTERVAL`, resetting
`last_full_refresh` only if `draw_screen` did not raise; else run the
power-only loop followed by `draw_screen` when
`now - last_power_check >= POWER_STATE_INTERVAL`, resetting `last_power_check`
only if the draw did not raise; else do nothing.  The lock is released in a
`finally` on every path; a propagated exception is caught by the loop's outer
handler, which sleeps 1 second instead of the base period. -/
def tick (env : TickEnv) (ps : PollerState) (app : AppState) :
    PollerState × AppState × List Event :=
  if env.menu1.isSome then
    (ps, app, [Event.sleep REFRESH_INTERVAL])
  else if app.lock_held then
    (ps, app, [Event.sleep REFRESH_INTERVAL])
  else if env.menu2.isSome then
    (ps, app, [Event.acquire, Event.release, Event.sleep REFRESH_INTERVAL])
  else if env.now - ps.last_full_refresh ≥ FULL_REFRESH_INTERVAL then
    let r := get_vm_list env.client env.now app.cache true
    let app' := { app with cache := r.2.1, vm_list := r.1 }
    if env.draw_raises then
      (ps, app',
       Event.acquire :: r.2.2 ++ [Event.draw, Event.release, Event.sleep 1])
    else
      ({ ps with last_full_refresh := env.now }, app',
       Event.acquire :: r.2.2 ++
         [Event.draw, Event.release, Event.sleep REFRESH_INTERVAL])
  else if env.now - ps.last_power_check ≥ POWER_STATE_INTERVAL then
    let r := powerLoop env.client env.now app.cache app.vm_list
    let app' := { app with cache := r.2.1, vm_list := r.1 }
    if env.draw_raises then
      (ps, app',
       Event.acquire :: r.2.2 ++ [Event.draw, Event.release, Event.sleep 1])
    else
      ({ ps with last_power_check := env.now }, app',
       Event.acquire :: r.2.2 ++
         [Event.draw, Event.release, Event.sleep REFRESH_INTERVAL])
  else
    (ps, app, [Event.acquire, Event.release, Event.sleep REFRESH_INTERVAL])

/-- The `action_map` dict of `vm_action` in `vm_put.py`. -/
def action_map (action : String) : Option String :=
  if action = "start" then some "on"
  else if action = "stop" then some "off"
  else if action = "shutdown" then some "shutdown"
  else if action = "suspend" then some "suspend"
  else none

/-- The `if menu_lock.acquire(timeout=1.0): try: log_message(...) finally:
menu_lock.release()` blocks of `vm_action`: when the lock is free, acquire
and release around the log call; when held by another actor, the timed
acquire fails and the log is skipped. -/
def lockedLog (lock_held : Bool) : Bool × List Event :=
  if lock_held then (lock_held, [])
  else (false, [Event.acquire, Event.release])

/-- `vm_action` from `vm_put.py`.  An unknown action logs (under the lock)
and returns false.  Otherwise one PUT on `/vms/{vm_id}/power` is made:
status 200 or 204 yields true, any other status false, and every raised
exception (timeout, network, other) false.  Returns
(success, lock state after, event trace). -/
def vm_action (client : Client) (vm_id action : String) (lock_held : Bool) :
    Bool × Bool × List Event :=
  match action_map action with
  | none =>
    let r := lockedLog lock_held
    (false, r.1, r.2)
  | some api_action =>
    match client.setPower vm_id api_action with
    | some status =>
      if status = 200 ∨ status = 204 then
        let r := lockedLog lock_held
        (true, r.1, r.2)
      else
        let r := lockedLog lock_held
        (false, r.1, r.2)
    | none =>
      let r := lockedLog lock_held
      (false, r.1, r.2)

/-- `menu_lock.acquire(timeout=1.0)` viewed from either actor: it succeeds
exactly when no one holds the gate. -/
def try_acquire (app : AppState) : Bool := !app.lock_held

lemma get_vm_power_state_events (client : Client) (now : Int) (st : CacheState)
    (i : String) :
    ∀ e ∈ (get_vm_power_state client now st i).2.2,
      e = Event.powerCall i ∨ e = Event.powerWrite i := by
  unfold get_vm_power_state
  rcases hc : st.power_state_cache i with _ | ⟨t, s⟩ <;> simp only [hc]
  · cases client.powerState i <;> simp
  · split
    · simp
    · cases client.powerState i <;> simp

lemma processVMs_events (client : Client) (now : Int) :
    ∀ (raws : List RawVM) (st : CacheState),
      ∀ e ∈ (processVMs client now st raws).2.2,
        ∃ j, e = Event.powerCall j ∨ e = Event.powerWrite j := by
  intro raws
  induction raws with
  | nil => intro st e he; simp [processVMs] at he
  | cons raw rest ih =>
    intro st e he
    unfold processVMs at he
    rcases hid : raw.id with _ | vm_id <;> simp only [hid] at he
    · exact ih st e he
    · split at he
      · simp only [List.mem_append] at he
        rcases he with h1 | h2
        · exact ⟨vm_id, get_vm_power_state_events client now st vm_id e h1⟩
        · exact ih _ e h2
      · exact ih st e he

lemma powerLoop_events (client : Client) (now : Int) :
    ∀ (vms : List VM) (st : CacheState),
      ∀ e ∈ (powerLoop client now st vms).2.2,
        ∃ j, e = Event.powerCall j ∨ e = Event.powerWrite j := by
  intro vms
  induction vms with
  | nil => intro st e he; simp [powerLoop] at he
  | cons vm rest ih =>
    intro st e he
    unfold powerLoop at he
    split at he
    · simp only [List.mem_append] at he
      rcases he with h1 | h2
      · exact ⟨vm.id, get_vm_power_state_events client now st vm.id e h1⟩
      · exact ih _ e h2
    · exact ih st e he

lemma get_vm_list_no_gate_events (client : Client) (now : Int)
    (st : CacheState) (force : Bool) :
    ∀ e ∈ (get_vm_list client now st force).2.2,
      e ≠ Event.acquire ∧ e ≠ Event.release := by
  intro e he
  unfold get_vm_list at he
  split at he
  · simp at he
  · cases hl : client.listVMs with
    | success raws =>
      simp only [hl, List.cons_append, List.mem_cons, List.mem_append,
        List.mem_singleton] at he
      rcases he with rfl | he
      · simp
      rcases he with he | rfl | he
      · rcases processVMs_events client now raws st e he with ⟨j, hj | hj⟩ <;> simp [hj]
      · simp
      · simp at he
    | httpError n => simp [hl] at he; simp [he]
    | exception => simp [hl] at he; simp [he]

lemma powerLoop_no_listCall (client : Client) (now : Int)
    (vms : List VM) (st : CacheState) :
    Event.listCall ∉ (powerLoop client now st vms).2.2 := by
  intro h
  rcases powerLoop_events client now vms st _ h with ⟨j, hj | hj⟩ <;> exact absurd hj (by simp)

lemma processVMs_no_listCall (client : Client) (now : Int)
    (raws : List RawVM) (st : CacheState) :
    Event.listCall ∉ (processVMs client now st raws).2.2 := by
  intro h
  rcases processVMs_events client now raws st _ h with ⟨j, hj | hj⟩ <;> exact absurd hj (by simp)

/-- `true` iff the power-state cache entry for `vm_id` is absent or at least
`CACHE_TIMEOUT` old at time `now` (the condition under which
`get_vm_power_state` goes to the client). -/
def entryStaleOrAbsent (st : CacheState) (now : Int) (vm_id : String) : Bool :=
  match st.power_state_cache vm_id with
  | none => true
  | some (t, _) => decide (CACHE_TIMEOUT ≤ now - t)

/-- C8: a `get_vm_power_state` call for id `a` never modifies or re-timestamps
any other id's power-state cache entry, and never touches the inventory cache
or its timestamp; only `a`'s entry may be written. -/
theorem power_state_cache_frame (client : Client) (now : Int) (st : CacheState)
    (a b : String) (h : a ≠ b) :
    (get_vm_power_state client now st a).2.1.power_state_cache b
        = st.power_state_cache b
    ∧ (get_vm_power_state client now st a).2.1.vm_list_cache = st.vm_list_cache
    ∧ (get_vm_power_state client now st a).2.1.last_refresh = st.last_refresh := by
  unfold get_vm_power_state
  rcases hc : st.power_state_cache a with _ | ⟨t, s⟩ <;> simp only [hc]
  · cases client.powerState a <;> simp [Ne.symm h]
  · split
    · simp
    · cases client.powerState a <;> simp [Ne.symm h]

/-- C9: when the cached entry for `vm_id` is absent or stale and the client
fetch fails (non-OK response or exception), `get_vm_power_state` returns
`'UNKNOWN'`, leaves the entire cache state unchanged, and performs exactly
the one failed client call (it never raises: the embedding is total, matching
the function's catch-all `except`). -/
theorem power_state_failure_returns_unknown (client : Client) (now : Int)
    (st : CacheState) (vm_id : String)
    (h1 : entryStaleOrAbsent st now vm_id = true)
    (h2 : (client.powerState vm_id).failed = true) :
    get_vm_power_state client now st vm_id
      = ("UNKNOWN", st, [Event.powerCall vm_id]) := by
  unfold get_vm_power_state
  rcases hc : st.power_state_cache vm_id with _ | ⟨t, s⟩ <;> simp only [hc]
  · cases hp : client.powerState vm_id with
    | success payload => rw [hp] at h2; simp [ClientResult.failed] at h2
    | httpError n => simp
    | exception => simp
  · unfold entryStaleOrAbsent at h1
    rw [hc] at h1
    simp only [decide_eq_true_eq] at h1
    rw [if_neg (not_lt.mpr h1)]
    cases hp : client.powerState vm_id with
    | success payload => rw [hp] at h2; simp [ClientResult.failed] at h2
    | httpError n => simp
    | exception => simp

/-- C10: with an empty cached inventory list, `get_vm_list(force=False)`
always goes to the client (Python's truthiness test on `vm_list_cache` makes
an empty list count as a cache miss whatever its age). -/
theorem empty_inventory_always_refetches (client : Client) (now : Int)
    (st : CacheState) (h : st.vm_list_cache = []) :
    Event.listCall ∈ (get_vm_list client now st false).2.2 := by
  unfold get_vm_list
  rw [if_neg (by simp [h])]
  cases client.listVMs <;> simp

/-- C2: a poller tick that observes an active submenu at its top-of-loop
check changes no state (no cache writes, no client calls, no lock activity)
and only sleeps the base period. -/
theorem tick_suspended_on_submenu (env : TickEnv) (ps : PollerState)
    (app : AppState) (h : env.menu1.isSome = true) :
    tick env ps app = (ps, app, [Event.sleep REFRESH_INTERVAL]) := by
  unfold tick
  rw [if_pos h]

/-- Concrete fixture: a client whose every request raises. -/
def clientFail : Client :=
  { listVMs := ClientResult.exception,
    powerState := fun _ => ClientResult.exception,
    setPower := fun _ _ => none }

/-- Concrete fixture: a client listing one VM `"a"` whose power endpoint
reports `"poweredOff"`. -/
def clientOne : Client :=
  { listVMs := ClientResult.success [{ id := some "a", path := "p" }],
    powerState := fun _ => ClientResult.success (some "poweredOff"),
    setPower := fun _ _ => some 200 }

/-- Concrete fixture: a client listing three VMs (the spec's TTL scenario). -/
def clientThree : Client :=
  { listVMs := ClientResult.success
      [{ id := some "v1", path := "q1" }, { id := some "v2", path := "q2" },
       { id := some "v3", path := "q3" }],
    powerState := fun _ => ClientResult.success (some "poweredOn"),
    setPower := fun _ _ => some 204 }

/-- Fixture: the empty cache state (module load state of `vm_get.py`,
with `last_refresh = 0`). -/
def emptyCache : CacheState :=
  { vm_list_cache := [], last_refresh := 0, power_state_cache := fun _ => none }

/-- Fixture: a cached VM record. -/
def vmA : VM := { id := "a", path := "p", name := "p", power_state := "poweredOn" }

/-- Fixture: inventory cache holding `vmA`, captured at time 0, with no
power-state entries. -/
def cacheA : CacheState :=
  { vm_list_cache := [vmA], last_refresh := 0, power_state_cache := fun _ => none }

/-- Witness for C8 at concrete ids "a" and "b". -/
theorem power_state_cache_frame_witness :
    ("a" : String) ≠ "b" ∧
    (get_vm_power_state clientOne 0 emptyCache "a").2.1.power_state_cache "b"
      = emptyCache.power_state_cache "b" :=
  ⟨by decide, (power_state_cache_frame clientOne 0 emptyCache "a" "b" (by decide)).1⟩

/-- Witness for C9: absent entry, raising client. -/
theorem power_state_failure_returns_unknown_witness :
    entryStaleOrAbsent emptyCache 0 "a" = true ∧
    (clientFail.powerState "a").failed = true ∧
    get_vm_power_state clientFail 0 emptyCache "a"
      = ("UNKNOWN", emptyCache, [Event.powerCall "a"]) :=
  ⟨rfl, rfl, power_state_failure_returns_unknown clientFail 0 emptyCache "a" rfl rfl⟩

/-- Witness for C10: empty cache at age 2 (below the TTL). -/
theorem empty_inventory_always_refetches_witness :
    emptyCache.vm_list_cache = [] ∧
    Event.listCall ∈ (get_vm_list clientOne 2 emptyCache false).2.2 :=
  ⟨rfl, empty_inventory_always_refetches clientOne 2 emptyCache rfl⟩

/-- Fixture: initial poller timers (both at 0, as `vm_refresh_worker` sets). -/
def ps0 : PollerState := { last_full_refresh := 0, last_power_check := 0 }

/-- Fixture: app state with empty caches, empty main-menu list, gate free. -/
def app0 : AppState := { cache := emptyCache, vm_list := [], lock_held := false }

/-- Fixture: a tick environment in which the config submenu is open and both
poller timers are due. -/
def envSub : TickEnv :=
  { client := clientFail, now := 40, menu1 := some Submenu.config,
    menu2 := some Submenu.config, draw_raises := false }

/-- Witness for C2: config submenu open with both timers due. -/
theorem tick_suspended_on_submenu_witness :
    envSub.menu1.isSome = true ∧
    tick envSub ps0 app0 = (ps0, app0, [Event.sleep REFRESH_INTERVAL]) :=
  ⟨rfl, tick_suspended_on_submenu envSub ps0 app0 rfl⟩

/-- C7: a call whose client request fails records no silent success: both
`get_vm_list` and `get_vm_power_state` leave the whole cache state — caches
and their timestamps — exactly as it was. -/
theorem failure_preserves_cache (client : Client) (now : Int) (st : CacheState)
    (vm_id : String) (force : Bool)
    (h1 : client.listVMs.failed = true)
    (h2 : (client.powerState vm_id).failed = true) :
    (get_vm_list client now st force).2.1 = st
    ∧ (get_vm_power_state client now st vm_id).2.1 = st := by
  constructor
  · unfold get_vm_list
    split
    · rfl
    · cases hl : client.listVMs with
      | success raws => rw [hl] at h1; simp [ClientResult.failed] at h1
      | httpError n => rfl
      | exception => rfl
  · unfold get_vm_power_state
    rcases hc : st.power_state_cache vm_id with _ | ⟨t, s⟩ <;> simp only [hc]
    · cases hp : client.powerState vm_id with
      | success p => rw [hp] at h2; simp [ClientResult.failed] at h2
      | httpError n => rfl
      | exception => rfl
    · split
      · rfl
      · cases hp : client.powerState vm_id with
        | success p => rw [hp] at h2; simp [ClientResult.failed] at h2
        | httpError n => rfl
        | exception => rfl

/-- Witness for C7: raising client against a populated cache. -/
theorem failure_preserves_cache_witness :
    clientFail.listVMs.failed = true ∧
    (clientFail.powerState "a").failed = true ∧
    (get_vm_list clientFail 10 cacheA false).2.1 = cacheA :=
  ⟨rfl, rfl, (failure_preserves_cache clientFail 10 cacheA "a" false rfl rfl).1⟩

/-- C1 counterexample: at time 10 the inventory entry captured at time 0 is
stale, the cache holds one VM, and the client raises — yet `get_vm_list`
returns `[]`, not the previously cached inventory. -/
theorem list_failure_ignores_cached_value_cex :
    cacheA.vm_list_cache ≠ [] ∧
    (get_vm_list clientFail 10 cacheA false).1 = [] ∧
    (get_vm_list clientFail 10 cacheA false).1 ≠ cacheA.vm_list_cache := by
  refine ⟨by decide, ?_, by decide⟩
  decide

/-- C1 amended: when `get_vm_list` reaches the client (forced call, empty
cached list, or stale entry) and the client call fails, it returns the empty
list — regardless of any cached inventory — leaves the cache state untouched,
and performs exactly the one failed list call; it never raises (the
function's `except` swallows every exception, and the embedding is total). -/
theorem list_failure_returns_empty (client : Client) (now : Int)
    (st : CacheState) (force : Bool)
    (hreach : ¬(force = false ∧ st.vm_list_cache ≠ [] ∧
                 now - st.last_refresh < CACHE_TIMEOUT))
    (hfail : client.listVMs.failed = true) :
    get_vm_list client now st force = ([], st, [Event.listCall]) := by
  unfold get_vm_list
  rw [if_neg hreach]
  cases hl : client.listVMs with
  | success raws => rw [hl] at hfail; simp [ClientResult.failed] at hfail
  | httpError n => rfl
  | exception => rfl

/-- Witness for the amended C1: stale populated cache, raising client. -/
theorem list_failure_returns_empty_witness :
    ¬(false = false ∧ cacheA.vm_list_cache ≠ [] ∧
       (10 : Int) - cacheA.last_refresh < CACHE_TIMEOUT) ∧
    clientFail.listVMs.failed = true ∧
    get_vm_list clientFail 10 cacheA false = ([], cacheA, [Event.listCall]) :=
  ⟨by decide, rfl, list_failure_returns_empty clientFail 10 cacheA false (by decide) rfl⟩

/-- C5 counterexample: with an empty cached list whose entry is 2s old
(strictly below the 5s TTL), `get_vm_list(force=False)` still performs a
client call, contradicting the claim that any call within the TTL is served
from the cache with no client call. -/
theorem fresh_but_empty_cache_calls_client_cex :
    (2 : Int) - emptyCache.last_refresh < CACHE_TIMEOUT ∧
    Event.listCall ∈ (get_vm_list clientOne 2 emptyCache false).2.2 := by
  constructor
  · decide
  · decide

/-- C5 amended: provided the cached inventory list is non-empty, an unforced
`get_vm_list` within the TTL returns the cached list with no client call and
no state change, and once the entry's age reaches the TTL the next unforced
call performs exactly one list-VMs client call. -/
theorem inventory_ttl_behavior (client : Client) (now : Int) (st : CacheState)
    (hne : st.vm_list_cache ≠ []) :
    (now - st.last_refresh < CACHE_TIMEOUT →
       get_vm_list client now st false = (st.vm_list_cache, st, []))
    ∧ (CACHE_TIMEOUT ≤ now - st.last_refresh →
       ((get_vm_list client now st false).2.2).count Event.listCall = 1) := by
  constructor
  · intro hf
    unfold get_vm_list
    rw [if_pos ⟨rfl, hne, hf⟩]
  · intro hs
    unfold get_vm_list
    rw [if_neg (fun h => absurd h.2.2 (not_lt.mpr hs))]
    cases hl : client.listVMs with
    | success raws =>
      have hnm := processVMs_no_listCall client now raws st
      simp [List.count_cons, List.count_append, List.count_eq_zero, hnm]
    | httpError n => simp
    | exception => simp

/-- Fixtures for the 3-VM TTL scenario: the records `get_vm_list` builds from
`clientThree` at time 0. -/
def vm1 : VM := { id := "v1", path := "q1", name := "q1", power_state := "poweredOn" }

def vm2 : VM := { id := "v2", path := "q2", name := "q2", power_state := "poweredOn" }

def vm3 : VM := { id := "v3", path := "q3", name := "q3", power_state := "poweredOn" }

/-- Fixture: inventory cache holding the three records captured at time 0. -/
def cacheThree : CacheState :=
  { vm_list_cache := [vm1, vm2, vm3], last_refresh := 0,
    power_state_cache := fun k =>
      if k = "v1" ∨ k = "v2" ∨ k = "v3" then some (0, "poweredOn") else none }

/-- Witness for the amended C5: the spec scenario with 3 VMs fetched at
t=0, an unforced call at t=2 (served, no client call) and one at t=6
(exactly one list call). -/
theorem inventory_ttl_behavior_witness :
    cacheThree.vm_list_cache ≠ [] ∧
    get_vm_list clientThree 2 cacheThree false
      = (cacheThree.vm_list_cache, cacheThree, []) ∧
    ((get_vm_list clientThree 6 cacheThree false).2.2).count Event.listCall = 1 :=
  ⟨by decide,
   (inventory_ttl_behavior clientThree 2 cacheThree (by decide)).1 (by decide),
   (inventory_ttl_behavior clientThree 6 cacheThree (by decide)).2 (by decide)⟩

/-- Fixture: cache with a fresh power-state entry for VM `"a"` (captured at
time 0, read at time 2) and an empty inventory. -/
def cacheFreshPower : CacheState :=
  { vm_list_cache := [], last_refresh := 0,
    power_state_cache := fun k => if k = "a" then some (0, "poweredOn") else none }

/-- C6 counterexample: a forced full refresh at time 2 lists VM `"a"` but
serves its power state from the still-fresh per-VM cache (`"poweredOn"`)
instead of fetching it — no `powerCall` is made even though the client would
have answered `"poweredOff"`. -/
theorem full_refresh_serves_cached_power_cex :
    (get_vm_list clientOne 2 cacheFreshPower true).1
      = [{ id := "a", path := "p", name := "p", power_state := "poweredOn" }] ∧
    Event.powerCall "a" ∉ (get_vm_list clientOne 2 cacheFreshPower true).2.2 ∧
    clientOne.powerState "a" = ClientResult.success (some "poweredOff") := by
  refine ⟨?_, ?_, rfl⟩ <;> decide

/-- C6 amended: a refresh that reaches the client and succeeds builds the new
list via `processVMs` — each listed VM's power state obtained through
`get_vm_power_state`, which serves its per-VM cache when fresh and fetches
otherwise — and replaces the inventory cache entry wholesale with exactly
that list, timestamped `now`. -/
theorem full_refresh_replaces_inventory (client : Client) (now : Int)
    (st : CacheState) (force : Bool) (raws : List RawVM)
    (hreach : ¬(force = false ∧ st.vm_list_cache ≠ [] ∧
                 now - st.last_refresh < CACHE_TIMEOUT))
    (hs : client.listVMs = ClientResult.success raws) :
    (get_vm_list client now st force).1 = (processVMs client now st raws).1
    ∧ (get_vm_list client now st force).2.1.vm_list_cache
        = (get_vm_list client now st force).1
    ∧ (get_vm_list client now st force).2.1.last_refresh = now
    ∧ (get_vm_list client now st force).2.1.power_state_cache
        = (processVMs client now st raws).2.1.power_state_cache := by
  unfold get_vm_list
  rw [if_neg hreach]
  simp [hs]

/-- Witness for the amended C6: forced refresh at t=2 against a fresh
per-VM power cache entry. -/
theorem full_refresh_replaces_inventory_witness :
    clientOne.listVMs = ClientResult.success [{ id := some "a", path := "p" }] ∧
    (get_vm_list clientOne 2 cacheFreshPower true).2.1.vm_list_cache
      = (get_vm_list clientOne 2 cacheFreshPower true).1 ∧
    (get_vm_list clientOne 2 cacheFreshPower true).2.1.last_refresh = 2 :=
  ⟨rfl,
   (full_refresh_replaces_inventory clientOne 2 cacheFreshPower true
      [{ id := some "a", path := "p" }] (by decide) rfl).2.1,
   (full_refresh_replaces_inventory clientOne 2 cacheFreshPower true
      [{ id := some "a", path := "p" }] (by decide) rfl).2.2.1⟩

/-- Fixture: app state in which the main menu's list and the inventory cache
agree (the normal situation after a successful refresh), gate free. -/
def appAgree : AppState := { cache := cacheA, vm_list := [vmA], lock_held := false }

/-- Fixture: poller timers making a full refresh due at time 35. -/
def psDue : PollerState := { last_full_refresh := 0, last_power_check := 25 }

/-- Fixture: poller tick at t=35, no submenu, client failing. -/
def envFail35 : TickEnv :=
  { client := clientFail, now := 35, menu1 := none, menu2 := none,
    draw_raises := false }

/-- Fixture: poller tick at t=40, no submenu, client failing. -/
def envFail40 : TickEnv :=
  { client := clientFail, now := 40, menu1 := none, menu2 := none,
    draw_raises := false }

/-- C3 counterexample: after a full-refresh tick whose client call failed
(t=35), the inventory cache still holds `vmA` but `main_menu.vm_list` became
`[]`; the next tick (t=40) runs the power-state branch (it resets
`last_power_check`) yet makes no power call for `"a"`, although `"a"` sits in
the inventory cache with a stale (absent) power entry — so the branch does
not refresh "every VM currently in the inventory cache". -/
theorem power_tick_misses_cached_vm_cex :
    (tick envFail35 psDue appAgree).2.1.cache.vm_list_cache = [vmA]
    ∧ (tick envFail35 psDue appAgree).2.1.vm_list = []
    ∧ (tick envFail40 (tick envFail35 psDue appAgree).1
         (tick envFail35 psDue appAgree).2.1).1.last_power_check = 40
    ∧ entryStaleOrAbsent (tick envFail35 psDue appAgree).2.1.cache 40 "a" = true
    ∧ Event.powerCall "a" ∉
        (tick envFail40 (tick envFail35 psDue appAgree).1
          (tick envFail35 psDue appAgree).2.1).2.2 := by
  refine ⟨?_, ?_, ?_, ?_, ?_⟩ <;> decide

/-- C3 amended: for a tick that acquires the free gate with no submenu
observed at either check and whose screen draw does not raise: when the full
timer (30s) is due, the tick performs the forced full refresh and resets only
`last_full_refresh`; else when the power timer (10s) is due, it runs the
power-state loop over the main menu's current VM list (which coincides with
the inventory cache after a successful refresh, but is empty after a failed
one) and resets only `last_power_check`; otherwise it does nothing.  The
three cases are mutually exclusive, so a tick never performs both refreshes. -/
theorem tick_refresh_dispatch (env : TickEnv) (ps : PollerState)
    (app : AppState)
    (h1 : env.menu1 = none) (h2 : env.menu2 = none)
    (h3 : app.lock_held = false) (h4 : env.draw_raises = false) :
    (FULL_REFRESH_INTERVAL ≤ env.now - ps.last_full_refresh →
       tick env ps app
         = ({ ps with last_full_refresh := env.now },
            { app with
                cache := (get_vm_list env.client env.now app.cache true).2.1,
                vm_list := (get_vm_list env.client env.now app.cache true).1 },
            Event.acquire :: (get_vm_list env.client env.now app.cache true).2.2
              ++ [Event.draw, Event.release, Event.sleep REFRESH_INTERVAL]))
    ∧ (env.now - ps.last_full_refresh < FULL_REFRESH_INTERVAL →
       POWER_STATE_INTERVAL ≤ env.now - ps.last_power_check →
       tick env ps app
         = ({ ps with last_power_check := env.now },
            { app with
                cache := (powerLoop env.client env.now app.cache app.vm_list).2.1,
                vm_list := (powerLoop env.client env.now app.cache app.vm_list).1 },
            Event.acquire ::
              (powerLoop env.client env.now app.cache app.vm_list).2.2
              ++ [Event.draw, Event.release, Event.sleep REFRESH_INTERVAL]))
    ∧ (env.now - ps.last_full_refresh < FULL_REFRESH_INTERVAL →
       env.now - ps.last_power_check < POWER_STATE_INTERVAL →
       tick env ps app
         = (ps, app,
            [Event.acquire, Event.release, Event.sleep REFRESH_INTERVAL])) := by
  have hm1 : ¬env.menu1.isSome = true := by simp [h1]
  have hm2 : ¬env.menu2.isSome = true := by simp [h2]
  have hl : ¬app.lock_held = true := by simp [h3]
  refine ⟨?_, ?_, ?_⟩
  · intro hfull
    unfold tick
    rw [if_neg hm1, if_neg hl, if_neg hm2, if_pos hfull]
    simp [h4]
  · intro hnf hpow
    unfold tick
    rw [if_neg hm1, if_neg hl, if_neg hm2, if_neg (not_le.mpr hnf), if_pos hpow]
    simp [h4]
  · intro hnf hnp
    unfold tick
    rw [if_neg hm1, if_neg hl, if_neg hm2, if_neg (not_le.mpr hnf),
      if_neg (not_le.mpr hnp)]

/-- Fixture: an ordinary tick environment at t=12 (power timer due, full
timer not due), no submenu, healthy client, draw succeeds. -/
def envOK : TickEnv :=
  { client := clientOne, now := 12, menu1 := none, menu2 := none,
    draw_raises := false }

/-- Witness for the amended C3: power branch taken at t=12 from timers at 0. -/
theorem tick_refresh_dispatch_witness :
    envOK.menu1 = none ∧ envOK.menu2 = none ∧ appAgree.lock_held = false ∧
    envOK.draw_raises = false ∧
    tick envOK ps0 appAgree
      = ({ ps0 with last_power_check := 12 },
         { appAgree with
             cache := (powerLoop clientOne 12 cacheA [vmA]).2.1,
             vm_list := (powerLoop clientOne 12 cacheA [vmA]).1 },
         Event.acquire :: (powerLoop clientOne 12 cacheA [vmA]).2.2
           ++ [Event.draw, Event.release, Event.sleep REFRESH_INTERVAL]) :=
  ⟨rfl, rfl, rfl, rfl,
   (tick_refresh_dispatch envOK ps0 appAgree rfl rfl rfl rfl).2.1
     (by decide) (by decide)⟩

lemma get_vm_list_count_gate (client : Client) (now : Int) (st : CacheState)
    (force : Bool) :
    ((get_vm_list client now st force).2.2).count Event.acquire = 0
    ∧ ((get_vm_list client now st force).2.2).count Event.release = 0 :=
  ⟨List.count_eq_zero.mpr
     (fun h => (get_vm_list_no_gate_events client now st force _ h).1 rfl),
   List.count_eq_zero.mpr
     (fun h => (get_vm_list_no_gate_events client now st force _ h).2 rfl)⟩

lemma powerLoop_count_gate (client : Client) (now : Int) (st : CacheState)
    (vms : List VM) :
    ((powerLoop client now st vms).2.2).count Event.acquire = 0
    ∧ ((powerLoop client now st vms).2.2).count Event.release = 0 := by
  constructor <;> rw [List.count_eq_zero] <;> intro h <;>
    rcases powerLoop_events client now vms st _ h with ⟨j, hj | hj⟩ <;> simp at hj

lemma tick_count_gate (env : TickEnv) (ps : PollerState) (app : AppState) :
    ((tick env ps app).2.2).count Event.acquire
      = ((tick env ps app).2.2).count Event.release := by
  unfold tick
  split
  · rfl
  split
  · rfl
  split
  · rfl
  split
  · have hg := get_vm_list_count_gate env.client env.now app.cache true
    split <;>
      simp [List.count_cons, List.count_append, hg.1, hg.2]
  split
  · have hg := powerLoop_count_gate env.client env.now app.cache app.vm_list
    split <;>
      simp [List.count_cons, List.count_append, hg.1, hg.2]
  · rfl

lemma tick_lock_held (env : TickEnv) (ps : PollerState) (app : AppState) :
    (tick env ps app).2.1.lock_held = app.lock_held := by
  unfold tick
  split
  · rfl
  split
  · rfl
  split
  · rfl
  split
  · split <;> rfl
  split
  · split <;> rfl
  · rfl

lemma lockedLog_lock (lock0 : Bool) : (lockedLog lock0).1 = lock0 := by
  unfold lockedLog
  cases lock0 <;> simp

lemma lockedLog_count_gate (lock0 : Bool) :
    ((lockedLog lock0).2).count Event.acquire
      = ((lockedLog lock0).2).count Event.release := by
  unfold lockedLog
  cases lock0 <;> simp [List.count_cons]

lemma vm_action_lock (client : Client) (vm_id action : String) (lock0 : Bool) :
    (vm_action client vm_id action lock0).2.1 = lock0 := by
  unfold vm_action
  repeat' split
  all_goals exact lockedLog_lock lock0

lemma vm_action_count_gate (client : Client) (vm_id action : String)
    (lock0 : Bool) :
    ((vm_action client vm_id action lock0).2.2).count Event.acquire
      = ((vm_action client vm_id action lock0).2.2).count Event.release := by
  unfold vm_action
  repeat' split
  all_goals exact lockedLog_count_gate lock0

/-- C4: every acquisition of `menu_lock` is paired with a release on every
exit path.  A poller tick leaves the gate exactly as it found it — even when
the refresh body raises (`draw_raises` arbitrary) — its trace has as many
releases as acquires, and when the gate was free before the tick a subsequent
`try_acquire` succeeds.  Likewise `vm_action` leaves the gate as it found it
with paired acquire/release events on every path. -/
theorem gate_release_paired (env : TickEnv) (ps : PollerState) (app : AppState)
    (client : Client) (vm_id action : String) (lock0 : Bool) :
    (tick env ps app).2.1.lock_held = app.lock_held
    ∧ ((tick env ps app).2.2).count Event.acquire
        = ((tick env ps app).2.2).count Event.release
    ∧ (app.lock_held = false → try_acquire (tick env ps app).2.1 = true)
    ∧ (vm_action client vm_id action lock0).2.1 = lock0
    ∧ ((vm_action client vm_id action lock0).2.2).count Event.acquire
        = ((vm_action client vm_id action lock0).2.2).count Event.release := by
  refine ⟨tick_lock_held env ps app, tick_count_gate env ps app, ?_,
    vm_action_lock client vm_id action lock0,
    vm_action_count_gate client vm_id action lock0⟩
  intro hfree
  simp [try_acquire, tick_lock_held env ps app, hfree]

/-- Fixture: a tick environment at t=35 (full refresh due from `psDue`) in
which the screen draw raises mid-refresh. -/
def envRaise : TickEnv :=
  { client := clientOne, now := 35, menu1 := none, menu2 := none,
    draw_raises := true }

/-- Witness for C4: a tick whose draw raises mid-refresh still balances
acquire/release and leaves the gate acquirable. -/
theorem gate_release_paired_witness :
    appAgree.lock_held = false ∧
    ((tick envRaise psDue appAgree).2.2).count Event.acquire
      = ((tick envRaise psDue appAgree).2.2).count Event.release ∧
    try_acquire (tick envRaise psDue appAgree).2.1 = true ∧
    (vm_action clientFail "a" "start" false).2.1 = false :=
  ⟨rfl,
   (gate_release_paired envRaise psDue appAgree clientFail "a" "start" false).2.1,
   (gate_release_paired envRaise psDue appAgree clientFail "a" "start" false).2.2.1 rfl,
   (gate_release_paired envRaise psDue appAgree clientFail "a" "start" false).2.2.2.1⟩
